import Mathlib

/-!
Shallow embedding of the `aas-document-rag` embedding service
(`src/embedding-service/embedding.py`, `src/embedding-service/main.py`,
`src/embedding-service/DefaultStackSmePathInfo.py`).

External collaborators (HTTP download, docling conversion, the chunk
splitter, the embedding model, and the Weaviate index backend) are
modelled as an explicit `Backend` oracle; the Weaviate collection is
modelled as a `Store` (an existence flag plus a list of records, in
insertion order).  Python exceptions are modelled with `Except PyErr`;
a raised exception is an `Except.error` value that callers must
propagate explicitly, exactly as the Python call stack does.
-/

/-- Python exception kinds distinguished by the model. -/
inductive PyErr where
  | httpErr
  | convertErr
  | embedErr
  | connectErr
  | insertErr
  | attributeErr
  | typeErr
deriving DecidableEq, Repr

/-- One object stored in the `aas_documents` Weaviate collection by
`ingest_from_url` (properties `text`, `source`, `submodelId`,
`smElementPath`, `idShort`, plus the self-provided vector).
`smElementPath` is `Option` because the Python parameter defaults to
`None`; `submodelId` and `idShort` are plain strings because a `None`
value for either makes `ingest_from_url` raise before any insert. -/
structure IndexRecord where
  text : String
  source : String
  submodelId : String
  smElementPath : Option String
  idShort : String
  vector : List Int
deriving DecidableEq, Repr

/-- The Weaviate backend state: whether the `aas_documents` collection
exists, and its records in insertion order. -/
structure Store where
  collectionExists : Bool
  records : List IndexRecord
deriving DecidableEq, Repr

/-- Oracle for the external collaborators of `embedding.py`:
`fetchOk url` is whether `requests.get(url)` + `raise_for_status`
succeeds; `convertOk`/`convertMd` model `get_markdown_text`;
`chunksOf` models `chunks_from_text`; `embedOk`/`embedOf` model
`compute_embeddings_batched`; `connectOk` models
`weaviate.connect_to_custom`; `insertOk` models `insert_many`;
`deleteOk` models `delete_many`; `baseUrl` is the
`BASYX_SUBMODEL_REPO` environment value. -/
structure Backend where
  baseUrl : String
  fetchOk : String → Bool
  convertOk : Bool
  convertMd : String
  chunksOf : String → List String
  embedOk : Bool
  embedOf : String → List Int
  connectOk : Bool
  insertOk : Bool
  deleteOk : Bool

/-- Result of one `ingest_from_url` call: the outcome (normal return or
raised exception), the store afterwards, and flags recording which
observable effects happened (embedding computation, collection
creation, record insertion, temp-file write and removal). -/
structure IngestResult where
  outcome : Except PyErr Unit
  store : Store
  embeddingsComputed : Bool
  collectionCreated : Bool
  recordsInserted : Bool
  fileWritten : Bool
  fileRemoved : Bool

/-- Python whitespace characters relevant to `str.strip()` (ASCII
whitespace; the payloads in scope are ASCII). -/
def pyIsSpace (c : Char) : Bool :=
  c == ' ' || c == '\t' || c == '\n' || c == '\r' || c == Char.ofNat 11 || c == Char.ofNat 12

/-- Model of Python `not t.strip()`: true iff every character of `t`
is whitespace (in particular true for the empty string). -/
def strippedEmpty (t : String) : Bool :=
  t.toList.all pyIsSpace

/-- Model of Python `str.upper()` (ASCII case mapping). -/
def pyUpper (s : String) : String :=
  String.mk (s.toList.map Char.toUpper)

/-- Model of Python `str.lower()` (ASCII case mapping). -/
def pyLower (s : String) : String :=
  String.mk (s.toList.map Char.toLower)

/-- Model of Python `s.startswith(pre)`. -/
def pyStartsWith (pre s : String) : Bool :=
  pre.toList.isPrefixOf s.toList

/-- Model of Python `s.endswith(suf)`. -/
def pyEndsWith (suf s : String) : Bool :=
  suf.toList.isSuffixOf s.toList

/-- Model of Python `needle in hay` for strings (substring test). -/
def listContains (needle hay : List Char) : Bool :=
  hay.tails.any (fun t => needle.isPrefixOf t)

/-- Model of Python `str.split(sep)` for a one-character separator,
on character lists (empty pieces are kept, as Python does). -/
def splitChar (sep : Char) : List Char → List (List Char)
  | [] => [[]]
  | c :: rest =>
    match splitChar sep rest with
    | [] => [[]]
    | h :: t => if c == sep then [] :: h :: t else (c :: h) :: t

/-- Model of `url.split('/')[-1].split('?')[0]` (embedding.py line 97). -/
def rawNameOf (url : String) : String :=
  String.mk ((splitChar '?' ((splitChar '/' url.toList).getLastD [])).headD [])

/-- UTF-8 encoding of one character, as Python `str.encode()` produces
for each code point (Lean `Char`s are valid scalar values, so the four
standard ranges cover everything; every emitted byte is `< 256`). -/
def utf8Encode (c : Char) : List Nat :=
  let n := c.toNat
  if n < 128 then [n]
  else if n < 2048 then [192 + n / 64, 128 + n % 64]
  else if n < 65536 then [224 + n / 4096, 128 + (n / 64) % 64, 128 + n % 64]
  else [240 + (n / 262144) % 8, 128 + (n / 4096) % 64, 128 + (n / 64) % 64, 128 + n % 64]

/-- Model of Python `s.encode()`: the UTF-8 bytes of a string. -/
def strBytes (s : String) : List Nat :=
  s.toList.flatMap utf8Encode

/-- The URL-safe base64 alphabet map (RFC 4648 §5): sextet to character. -/
def sextetToChar (n : Nat) : Char :=
  if n < 26 then Char.ofNat (65 + n)
  else if n < 52 then Char.ofNat (97 + (n - 26))
  else if n < 62 then Char.ofNat (48 + (n - 52))
  else if n = 62 then '-'
  else '_'

/-- Inverse of the URL-safe base64 alphabet map. -/
def charToSextet (c : Char) : Nat :=
  let n := c.toNat
  if 65 ≤ n && n ≤ 90 then n - 65
  else if 97 ≤ n && n ≤ 122 then n - 97 + 26
  else if 48 ≤ n && n ≤ 57 then n - 48 + 52
  else if c == '-' then 62
  else 63

/-- Base64 bit regrouping: bytes (8-bit groups) to sextets (6-bit
groups), processing three bytes into four sextets, with the standard
short final group for one or two leftover bytes. -/
def encodeSextets : List Nat → List Nat
  | b1 :: b2 :: b3 :: rest =>
      b1 / 4 :: ((b1 % 4) * 16 + b2 / 16) :: ((b2 % 16) * 4 + b3 / 64) :: (b3 % 64) ::
        encodeSextets rest
  | [b1, b2] => [b1 / 4, (b1 % 4) * 16 + b2 / 16, (b2 % 16) * 4]
  | [b1] => [b1 / 4, (b1 % 4) * 16]
  | [] => []

/-- Base64 bit regrouping in the decoding direction: sextets back to
bytes (a lone trailing sextet cannot arise from an encoding and decodes
to nothing). -/
def decodeSextets : List Nat → List Nat
  | s1 :: s2 :: s3 :: s4 :: rest =>
      (s1 * 4 + s2 / 16) :: ((s2 % 16) * 16 + s3 / 4) :: ((s3 % 4) * 64 + s4) ::
        decodeSextets rest
  | [s1, s2, s3] => [s1 * 4 + s2 / 16, (s2 % 16) * 16 + s3 / 4]
  | [s1, s2] => [s1 * 4 + s2 / 16]
  | _ => []

/-- Model of Python `s.rstrip("=")` on a character list. -/
def rstripEqChars (l : List Char) : List Char :=
  (l.reverse.dropWhile (fun c => c == '=')).reverse

/-- Number of `'='` padding characters `base64.urlsafe_b64encode`
appends for an input of the given byte length. -/
def b64PadCount (len : Nat) : Nat :=
  (3 - len % 3) % 3

/-- Model of `base64.urlsafe_b64encode(bs).decode().rstrip("=")`
(embedding.py line 93): padded URL-safe base64, with the padding
stripped again. -/
def urlsafeB64NoPad (bs : List Nat) : List Char :=
  rstripEqChars ((encodeSextets bs).map sextetToChar ++ List.replicate (b64PadCount bs.length) '=')

/-- Decoding of an unpadded URL-safe base64 character string back to
bytes. -/
def b64decodeChars (cs : List Char) : List Nat :=
  decodeSextets (cs.map charToSextet)

/-- URL resolution of `ingest_from_url` (embedding.py lines 92–95): a
truthy value starting with `"http"` is used verbatim; otherwise the
URL is derived from the repository base, the padding-free URL-safe
base64 of the UTF-8 bytes of `sm_id`, and `id_s`, following the fixed
template. -/
def resolveUrl (base : String) (url? : Option String) (sm_id id_s : String) : String :=
  let derived := base ++ "/submodels/" ++ String.mk (urlsafeB64NoPad (strBytes sm_id)) ++
    "/submodel-elements/" ++ id_s ++ "/attachment"
  match url? with
  | some u => if !(u.toList.isEmpty) && pyStartsWith "http" u then u else derived
  | none => derived

/-- Model of `ingest_from_url(url, id_s, sm_id, sm_element_path)`
(embedding.py lines 91–156), translated step by step:
URL resolution (92–95), filename derivation (97–101, kept only as the
temp-file flags since the path itself is internal), download (105–108),
conversion (110), chunking (111), the empty/whitespace-chunk early
return (113–114), embedding (116), connection (118–122),
create-if-absent (124–135), and unconditional `insert_many` (137–150);
the `finally` block (152–156) closes the client and removes the temp
file whenever it was written.  A `None` value for `id_s` or `sm_id`
raises a `TypeError` in lines 93–98, before the `try` block, so the
store is untouched and no file is written.  There is no existence
check anywhere in the function. -/
def ingest_from_url (be : Backend) (url? id_s? sm_id? sm_element_path : Option String)
    (st : Store) : IngestResult :=
  match sm_id?, id_s? with
  | some sm_id, some id_s =>
    let url := resolveUrl be.baseUrl url? sm_id id_s
    let raw_name := rawNameOf url
    if !(be.fetchOk url) then
      ⟨.error .httpErr, st, false, false, false, false, false⟩
    else if !be.convertOk then
      ⟨.error .convertErr, st, false, false, false, true, true⟩
    else
      let texts := be.chunksOf be.convertMd
      if texts.isEmpty || texts.all strippedEmpty then
        ⟨.ok (), st, false, false, false, true, true⟩
      else if !be.embedOk then
        ⟨.error .embedErr, st, false, false, false, true, true⟩
      else if !be.connectOk then
        ⟨.error .connectErr, st, true, false, false, true, true⟩
      else
        let created := !st.collectionExists
        if !be.insertOk then
          ⟨.error .insertErr, ⟨true, st.records⟩, true, created, false, true, true⟩
        else
          let newRecs := texts.map (fun t =>
            ⟨t, raw_name, sm_id, sm_element_path, id_s, be.embedOf t⟩)
          ⟨.ok (), ⟨true, st.records ++ newRecs⟩, true, created, true, true, true⟩
  | _, _ => ⟨.error .typeErr, st, false, false, false, false, false⟩

/-- Model of `delete_specific_document(sm_id, smElementPath)`
(embedding.py lines 158–182): connect, return early when the
collection does not exist, build an equality filter on `submodelId`,
conjoin an equality filter on `smElementPath` only when that argument
is truthy (so `None` and `""` both mean "no narrowing"), and
`delete_many`; the bare `except Exception: pass` swallows every error
(including a `None` `sm_id`, which the filter builder rejects), so the
function always returns normally and the store is unchanged on any
failure. -/
def delete_specific_document (be : Backend) (sm_id? smElementPath? : Option String)
    (st : Store) : Store :=
  match sm_id? with
  | none => st
  | some sm_id =>
    if !be.connectOk then st
    else if !st.collectionExists then st
    else if !be.deleteOk then st
    else
      ⟨st.collectionExists, st.records.filter (fun r =>
        !(r.submodelId == sm_id &&
          (match smElementPath? with
           | some p => if !(p.toList.isEmpty) then r.smElementPath == some p else true
           | none => true)))⟩

/-- A submodel element as delivered in the JSON event payload: a
Python dict with the keys `embedding.py` reads (`modelType`,
`contentType`, `value`, `idShort`, `submodelElements`); an absent
key is `none` (absent `submodelElements` is the empty list, which
the code treats identically). -/
inductive El where
  | mk (modelType contentType value idShort : Option String) (submodelElements : List El)

/-- The `modelType` entry of an element dict. -/
def El.modelType : El → Option String
  | .mk mt _ _ _ _ => mt

/-- The `contentType` entry of an element dict. -/
def El.contentType : El → Option String
  | .mk _ ct _ _ _ => ct

/-- The `value` entry of an element dict. -/
def El.value : El → Option String
  | .mk _ _ v _ _ => v

/-- The `idShort` entry of an element dict. -/
def El.idShort : El → Option String
  | .mk _ _ _ ids _ => ids

/-- The `submodelElements` entry of an element dict. -/
def El.submodelElements : El → List El
  | .mk _ _ _ _ subs => subs

/-- Model of `is_pdf(el)` (embedding.py lines 49–50):
`el.get("modelType") == "File"` and `"application/pdf"` occurs in the
lower-cased content type. -/
def is_pdf (el : El) : Bool :=
  el.modelType == some "File" &&
    listContains "application/pdf".toList (pyLower ((el.contentType).getD "")).toList

/-- A whole-submodel event payload (`event["submodel"]`), of which the
code reads only `submodelElements`. -/
structure Submodel where
  submodelElements : List El

/-- An inbound AAS event as read by `main.py` / `embedding.py`:
`type` (absent modelled as `""`, matching `event.get("type", "")`),
`id`, `smElementPath`, and the optional `submodel` / `smElement`
payloads. -/
structure Event where
  type : String
  id : Option String
  smElementPath : Option String
  submodel : Option Submodel
  smElement : Option El

/-- Model of `DefaultStackSmePathInfo._build_path_from_stack` as
invoked by `process_element`, i.e. on a stack of JSON dicts: a dict
has no `value` attribute, so `hasattr(first, 'value')` is false and
`current_list` stays `None`; for a stack of length ≤ 1 the loop body
never runs and the result is `""`; for length ≥ 2 the first iteration
evaluates `referable.id_short`, which raises `AttributeError` on a
dict. -/
def build_path_from_stack_dict (stack : List El) : Except PyErr String :=
  match stack with
  | [] => .ok ""
  | [_] => .ok ""
  | _ => .error .attributeErr

/-- Model of `DefaultStackSmePathInfo.get_id_short_path` (embedding.py
lines 230–238) given the base path and an already-computed stack path:
a truthy base is returned alone when the stack path is empty and
joined with `"."` otherwise; a falsy base (`None` or `""`) yields the
stack path. -/
def get_id_short_path (base : Option String) (stack_path : String) : String :=
  match base with
  | some b =>
    if !(b.toList.isEmpty) then
      (if stack_path.toList.isEmpty then b else b ++ "." ++ stack_path)
    else stack_path
  | none => stack_path

mutual
/-- Model of `process_element(path_info, el, sm_id)` (embedding.py
lines 250–259): push `el`, and if it is a PDF compute the id-short
path (which may raise) and call `ingest_from_url` with the path as
both `id_s` and `sm_element_path`; then recurse into
`submodelElements`; any raised exception propagates immediately (there
is no handler), skipping the pop and all remaining work.  The stack is
threaded functionally: `stack` is the stack before the push. -/
def process_element (be : Backend) (sm_id? : Option String) (stack : List El) :
    El → Store → Except PyErr Unit × Store
  | .mk mt ct v ids subs, st =>
    let el := El.mk mt ct v ids subs
    let stack' := stack ++ [el]
    let afterPdf : Except PyErr Unit × Store :=
      if is_pdf el then
        match build_path_from_stack_dict stack' with
        | .error e => (.error e, st)
        | .ok p =>
          let r := ingest_from_url be v (some p) sm_id? (some p) st
          (r.outcome, r.store)
      else (.ok (), st)
    match afterPdf with
    | (.error e, st1) => (.error e, st1)
    | (.ok _, st1) => process_elements be sm_id? stack' subs st1

/-- The per-sibling loop around `process_element`
(`for sub_el in el["submodelElements"]` in `process_element`, and
`for el in event["submodel"].get("submodelElements", [])` in
`handle_create`): siblings are processed in order and a raised
exception aborts the rest of the loop. -/
def process_elements (be : Backend) (sm_id? : Option String) (stack : List El) :
    List El → Store → Except PyErr Unit × Store
  | [], st => (.ok (), st)
  | c :: cs, st =>
    match process_element be sm_id? stack c st with
    | (.ok _, st1) => process_elements be sm_id? stack cs st1
    | (.error e, st1) => (.error e, st1)
end

/-- Model of `handle_create(event)` (embedding.py lines 261–273): a
whole-submodel payload walks every top-level element with a fresh
empty-stack path context; a single-element payload ingests the element
directly when it is a PDF, with `id_s = el.get("idShort")` and the
element path computed from the base path alone. -/
def handle_create (be : Backend) (ev : Event) (st : Store) : Except PyErr Unit × Store :=
  match ev.submodel with
  | some sm => process_elements be ev.id [] sm.submodelElements st
  | none =>
    match ev.smElement with
    | some el =>
      if is_pdf el then
        let sm_element_path := get_id_short_path el.idShort ""
        let r := ingest_from_url be el.value el.idShort ev.id (some sm_element_path) st
        (r.outcome, r.store)
      else (.ok (), st)
    | none => (.ok (), st)

/-- Model of `handle_update(event)` (embedding.py lines 275–286): for
a single-element PDF payload it deletes with the event's
`smElementPath` (`id_s` from `get_ids`) and then ingests with that
same `smElementPath` as `id_s` but with the element's `idShort` as the
stored `sm_element_path`; for a whole-submodel payload it deletes
every record of the submodel and re-runs `handle_create`. -/
def handle_update (be : Backend) (ev : Event) (st : Store) : Except PyErr Unit × Store :=
  match ev.smElement with
  | some el =>
    if is_pdf el then
      let sm_element_path := get_id_short_path el.idShort ""
      let st1 := delete_specific_document be ev.id ev.smElementPath st
      let r := ingest_from_url be el.value ev.smElementPath ev.id (some sm_element_path) st1
      (r.outcome, r.store)
    else (.ok (), st)
  | none =>
    match ev.submodel with
    | some _ =>
      let st1 := delete_specific_document be ev.id none st
      handle_create be ev st1
    | none => (.ok (), st)

/-- Model of `handle_delete(event)` (embedding.py lines 288–290). -/
def handle_delete (be : Backend) (ev : Event) (st : Store) : Except PyErr Unit × Store :=
  (.ok (), delete_specific_document be ev.id ev.smElementPath st)

/-- Model of the `POST /events` handler `handle_aas_event` (main.py
lines 6–29): a missing/falsy JSON body yields `400` with status
`"error"`; the upper-cased `type` is suffix-matched against
`_CREATED` / `_UPDATED` / `_DELETED`; an unrecognized suffix yields
`400` with status `"ignored"`; otherwise the matching handler runs
synchronously in the request thread, and the response is `200` with
status `"success"` on normal return or `500` with status `"error"`
when the handler raises.  The pair returned is
((HTTP status code, JSON `status` field), store afterwards). -/
def handle_aas_event (be : Backend) (event? : Option Event) (st : Store) :
    (Nat × String) × Store :=
  match event? with
  | none => ((400, "error"), st)
  | some ev =>
    let ty := pyUpper ev.type
    if pyEndsWith "_CREATED" ty then
      match handle_create be ev st with
      | (.ok _, st') => ((200, "success"), st')
      | (.error _, st') => ((500, "error"), st')
    else if pyEndsWith "_UPDATED" ty then
      match handle_update be ev st with
      | (.ok _, st') => ((200, "success"), st')
      | (.error _, st') => ((500, "error"), st')
    else if pyEndsWith "_DELETED" ty then
      match handle_delete be ev st with
      | (.ok _, st') => ((200, "success"), st')
      | (.error _, st') => ((500, "error"), st')
    else
      ((400, "ignored"), st)

/-- A referable as `DefaultStackSmePathInfo.py` expects it: an object
with an `id_short` attribute and a `value` attribute that may be an
ordered sequence of child referables.  Equality is structural,
matching Python `==` on the JSON/value-style node data this repository
feeds through its tree walk. -/
inductive Referable where
  | mk (id_short : String) (value : Option (List Referable))

/-- The `id_short` attribute of a referable. -/
def Referable.id_short : Referable → String
  | .mk s _ => s

/-- The `value` attribute of a referable (`some` iff it is a list). -/
def Referable.value : Referable → Option (List Referable)
  | .mk _ v => v

mutual
/-- Structural equality of referables, modelling Python `==` on
value-style nodes. -/
def Referable.beq : Referable → Referable → Bool
  | .mk s v, .mk t w =>
    s == t &&
      (match v, w with
       | none, none => true
       | some l, some m => Referable.beqList l m
       | _, _ => false)

/-- Structural equality of referable lists. -/
def Referable.beqList : List Referable → List Referable → Bool
  | [], [] => true
  | a :: as, b :: bs => Referable.beq a b && Referable.beqList as bs
  | _, _ => false
end

instance : BEq Referable := ⟨Referable.beq⟩

/-- Model of Python `list.index(x)` returning `none` for the
`ValueError` case: the index of the first element `==`-equal to `x`. -/
def pyIndex : List Referable → Referable → Option Nat
  | [], _ => none
  | a :: as, x =>
    if Referable.beq a x then some 0
    else (pyIndex as x).map (fun i => i + 1)

/-- The loop of `_build_path_from_stack`
(`DefaultStackSmePathInfo.py` lines 31–46): `last` is `stack[-1]`,
`cl` the current list context (the `value` list of the last
list-valued referable, or `none`).  In a list context the segment is
`"[i]"` with `i` from `list.index` (a `ValueError` is swallowed and no
segment is emitted); otherwise the segment is the referable's
`id_short`.  The referable then becomes the new list context iff its
`value` is a list; otherwise a `"."` separator is appended unless the
referable `==` the last stack entry. -/
def build_path_loop (last : Referable) : Option (List Referable) → List Referable → String
  | _, [] => ""
  | cl, r :: rest =>
    let seg :=
      match cl with
      | some l =>
        match pyIndex l r with
        | some i => "[" ++ Nat.repr i ++ "]"
        | none => ""
      | none => r.id_short
    let next := r.value
    let dot :=
      match r.value with
      | some _ => ""
      | none => if Referable.beq r last then "" else "."
    seg ++ dot ++ build_path_loop last next rest

/-- Model of `DefaultStackSmePathInfo._build_path_from_stack`
(`DefaultStackSmePathInfo.py` lines 17–48) on a stack of referable
objects: empty stack yields `""`; otherwise the first element only
seeds the list context and the loop runs over the rest. -/
def build_path_from_stack (stack : List Referable) : String :=
  match stack with
  | [] => ""
  | first :: rest =>
    let last := (first :: rest).getLastD first
    build_path_loop last first.value rest

/-- Model of `collections.deque.pop()`: raises `IndexError` (`none`)
on an empty deque, otherwise removes the rightmost entry. -/
def dequePop : List Referable → Option (List Referable)
  | [] => none
  | l => some l.dropLast

/-- Model of `DefaultStackSmePathInfo.pop`
(`DefaultStackSmePathInfo.py` lines 64–66): the truthiness guard
`if self._referable_stack:` skips the deque pop entirely on an empty
stack, so the method never raises (`some` result always). -/
def pathInfoPop (s : List Referable) : Option (List Referable) :=
  if s.isEmpty then some s else dequePop s

/-- Model of `DefaultStackSmePathInfo.offer` (append on the right). -/
def pathInfoOffer (s : List Referable) (r : Referable) : List Referable :=
  s ++ [r]

/-- One visitation-stack operation. -/
inductive StackOp where
  | offer (r : Referable)
  | pop

/-- Run a sequence of `offer`/`pop` operations on a visitation stack,
failing (`none`) if any single operation raises. -/
def runStackOps : List StackOp → List Referable → Option (List Referable)
  | [], s => some s
  | .offer r :: rest, s => runStackOps rest (pathInfoOffer s r)
  | .pop :: rest, s =>
    match pathInfoPop s with
    | some s' => runStackOps rest s'
    | none => none

/-- Deletion as the spec's words for claim C7 describe it (for
comparison with `delete_specific_document`): remove exactly the
records whose `entityId` matches, narrowed by exact `locationPath`
equality whenever a `locationPath` is supplied. -/
def deleteMatchingSpec (sm_id : String) (path? : Option String) (st : Store) : Store :=
  ⟨st.collectionExists, st.records.filter (fun r =>
    !(r.submodelId == sm_id &&
      (match path? with
       | some p => r.smElementPath == some p
       | none => true)))⟩

/-- A backend on which every external step succeeds, converting any
PDF into the single chunk `"hello"`. -/
def okBe : Backend :=
  ⟨"http://basyx-repo", fun _ => true, true, "doc", fun _ => ["hello"], true,
    fun _ => [1], true, true, true⟩

/-- Like `okBe`, but the HTTP download of `http://x/a.pdf` fails. -/
def badFetchBe : Backend :=
  ⟨"http://basyx-repo", fun u => !(u == "http://x/a.pdf"), true, "doc",
    fun _ => ["hello"], true, fun _ => [1], true, true, true⟩

/-- Like `okBe`, but chunking yields only empty/whitespace chunks. -/
def emptyChunksBe : Backend :=
  ⟨"http://basyx-repo", fun _ => true, true, "doc", fun _ => ["", "  "], true,
    fun _ => [1], true, true, true⟩

/-- A PDF element carrying the explicit URL `http://x/a.pdf`. -/
def pdfA : El :=
  El.mk (some "File") (some "application/pdf") (some "http://x/a.pdf") (some "DocA") []

/-- A PDF element carrying the explicit URL `http://x/b.pdf`. -/
def pdfB : El :=
  El.mk (some "File") (some "application/pdf") (some "http://x/b.pdf") (some "DocB") []

/-- The empty store (collection not yet created). -/
def store0 : Store := ⟨false, []⟩

/-- A `*_DELETED` event with no payload. -/
def evDel : Event := ⟨"SM_DELETED", some "sm1", none, none, none⟩

/-- A `*_CREATED` whole-submodel event whose first PDF's download
fails under `badFetchBe` while the second one's succeeds. -/
def evCreateBad : Event := ⟨"SM_CREATED", some "sm1", none, some ⟨[pdfA, pdfB]⟩, none⟩

/-- An event with an unrecognized type suffix. -/
def evRenamed : Event := ⟨"SM_RENAMED", some "sm1", none, none, none⟩

/-- A recognized `*_UPDATED` event with no payload (processing is a
no-op that returns normally). -/
def evUpdEmpty : Event := ⟨"SME_UPDATED", some "sm1", none, none, none⟩

/-- A PDF element with `idShort` `"B"` and an explicit URL. -/
def pdfNew : El :=
  El.mk (some "File") (some "application/pdf") (some "http://x/new.pdf") (some "B") []

/-- An `*_UPDATED` single-element event whose `smElementPath`
(`"A.B"`) differs from the element's `idShort` (`"B"`). -/
def evC4 : Event := ⟨"SME_UPDATED", some "sm1", some "A.B", none, some pdfNew⟩

/-- An `*_UPDATED` single-element event whose `smElementPath` equals
the element's `idShort` (`"B"`). -/
def evC4w : Event := ⟨"SME_UPDATED", some "sm1", some "B", none, some pdfNew⟩

/-- A pre-existing record stored under path `"B"` for submodel `sm1`. -/
def oldRecB : IndexRecord := ⟨"old", "a.pdf", "sm1", some "B", "B", [1]⟩

/-- A store already holding `oldRecB`. -/
def stC4 : Store := ⟨true, [oldRecB]⟩

/-- The record freshly ingested by `handle_update okBe evC4 _`. -/
def newRecC4 : IndexRecord := ⟨"hello", "new.pdf", "sm1", some "B", "A.B", [1]⟩

/-- A record of submodel `sm1` under path `"A"`. -/
def recC7 : IndexRecord := ⟨"old", "a.pdf", "sm1", some "A", "P", [1]⟩

/-- A store already holding `recC7`. -/
def stC7 : Store := ⟨true, [recC7]⟩

/-- The record ingested by `okBe` for `(sm1, P)`. -/
def recP : IndexRecord := ⟨"hello", "a.pdf", "sm1", some "P", "P", [1]⟩

/-- A leaf referable named `"X"`. -/
def refX : Referable := Referable.mk "X" none

/-- A list-valued referable whose two children are equal-valued. -/
def refL : Referable := Referable.mk "L" (some [refX, refX])

/-! ## Helper lemmas for the base64 round trip -/

theorem utf8Encode_lt_256 (c : Char) : ∀ b ∈ utf8Encode c, b < 256 := by
  intro b hb
  simp only [utf8Encode] at hb
  by_cases h1 : c.toNat < 128
  · simp [h1] at hb; omega
  · by_cases h2 : c.toNat < 2048
    · simp [h1, h2] at hb; rcases hb with rfl | rfl <;> omega
    · by_cases h3 : c.toNat < 65536
      · simp [h1, h2, h3] at hb; rcases hb with rfl | rfl | rfl <;> omega
      · simp [h1, h2, h3] at hb; rcases hb with rfl | rfl | rfl | rfl <;> omega

theorem strBytes_lt_256 (s : String) : ∀ b ∈ strBytes s, b < 256 := by
  intro b hb
  simp only [strBytes, List.mem_flatMap] at hb
  obtain ⟨c, _, hc⟩ := hb
  exact utf8Encode_lt_256 c b hc

theorem encodeSextets_lt_64 :
    ∀ bs : List Nat, (∀ b ∈ bs, b < 256) → ∀ s ∈ encodeSextets bs, s < 64
  | b1 :: b2 :: b3 :: rest, h, s, hs => by
    have hb1 := h b1 (by simp); have hb2 := h b2 (by simp); have hb3 := h b3 (by simp)
    have ih := encodeSextets_lt_64 rest (fun b hb => h b (by simp [hb]))
    simp only [encodeSextets, List.mem_cons] at hs
    rcases hs with rfl | rfl | rfl | rfl | hmem
    · omega
    · omega
    · omega
    · omega
    · exact ih s hmem
  | [b1, b2], h, s, hs => by
    have hb1 := h b1 (by simp); have hb2 := h b2 (by simp)
    simp only [encodeSextets, List.mem_cons, List.not_mem_nil, or_false] at hs
    rcases hs with rfl | rfl | rfl <;> omega
  | [b1], h, s, hs => by
    have hb1 := h b1 (by simp)
    simp only [encodeSextets, List.mem_cons, List.not_mem_nil, or_false] at hs
    rcases hs with rfl | rfl <;> omega
  | [], _, s, hs => by simp [encodeSextets] at hs

theorem decodeSextets_encodeSextets :
    ∀ bs : List Nat, (∀ b ∈ bs, b < 256) → decodeSextets (encodeSextets bs) = bs
  | b1 :: b2 :: b3 :: rest, h => by
    have hb1 := h b1 (by simp); have hb2 := h b2 (by simp); have hb3 := h b3 (by simp)
    have ih := decodeSextets_encodeSextets rest (fun b hb => h b (by simp [hb]))
    simp only [encodeSextets, decodeSextets, ih, List.cons.injEq, and_true]
    refine ⟨by omega, by omega, by omega⟩
  | [b1, b2], h => by
    have hb1 := h b1 (by simp); have hb2 := h b2 (by simp)
    simp only [encodeSextets, decodeSextets, List.cons.injEq, and_true]
    constructor <;> omega
  | [b1], h => by
    have hb1 := h b1 (by simp)
    simp only [encodeSextets, decodeSextets, List.cons.injEq, and_true]
    omega
  | [], _ => rfl

theorem charToSextet_sextetToChar : ∀ n : Nat, n < 64 → charToSextet (sextetToChar n) = n := by
  decide

theorem sextetToChar_ne_eq : ∀ n : Nat, n < 64 → ¬(sextetToChar n = '=') := by
  decide

theorem dropWhile_replicate_eq (k : Nat) (t : List Char) :
    List.dropWhile (fun c => c == '=') (List.replicate k '=' ++ t) =
      List.dropWhile (fun c => c == '=') t := by
  induction k with
  | zero => simp
  | succ n ih => simp [List.replicate_succ, List.dropWhile_cons, ih]

theorem rstripEqChars_append (l : List Char) (k : Nat) (h : ∀ c ∈ l, ¬(c = '=')) :
    rstripEqChars (l ++ List.replicate k '=') = l := by
  unfold rstripEqChars
  rw [List.reverse_append, List.reverse_replicate, dropWhile_replicate_eq]
  have hself : List.dropWhile (fun c => c == '=') l.reverse = l.reverse := by
    cases hr : l.reverse with
    | nil => simp
    | cons a t =>
      have ha : a ∈ l := by
        have : a ∈ l.reverse := by rw [hr]; exact List.mem_cons_self a t
        simpa using this
      have := h a ha
      simp [List.dropWhile_cons, this]
  rw [hself, List.reverse_reverse]

theorem map_charToSextet_sextetToChar (l : List Nat) (h : ∀ s ∈ l, s < 64) :
    (l.map sextetToChar).map charToSextet = l := by
  rw [List.map_map]
  have hc : ∀ s ∈ l, (charToSextet ∘ sextetToChar) s = id s := fun s hs =>
    charToSextet_sextetToChar s (h s hs)
  rw [List.map_congr_left hc, List.map_id]

theorem b64_roundtrip_bytes (bs : List Nat) (h : ∀ b ∈ bs, b < 256) :
    b64decodeChars (urlsafeB64NoPad bs) = bs := by
  unfold b64decodeChars urlsafeB64NoPad
  have hne : ∀ c ∈ (encodeSextets bs).map sextetToChar, ¬(c = '=') := by
    intro c hc
    rw [List.mem_map] at hc
    obtain ⟨s, hs, rfl⟩ := hc
    exact sextetToChar_ne_eq s (encodeSextets_lt_64 bs h s hs)
  rw [rstripEqChars_append _ _ hne,
    map_charToSextet_sextetToChar _ (encodeSextets_lt_64 bs h)]
  exact decodeSextets_encodeSextets bs h

theorem b64_roundtrip_string (s : String) :
    b64decodeChars (urlsafeB64NoPad (strBytes s)) = strBytes s :=
  b64_roundtrip_bytes (strBytes s) (strBytes_lt_256 s)

/-! ## Claim C8 -/

/-- C8 (confirmed): when resolving an attachment URL, a node value
starting with the HTTP scheme is used verbatim; otherwise the URL is
built from the configured repository base, the URL-safe base64
encoding of `entityId` (UTF-8 bytes, padding stripped) and
`localName`, following the fixed template
`<base>/submodels/<b64(entityId)>/submodel-elements/<localName>/attachment`;
and for every `entityId` string the encoding is round-trip stable:
decoding the padding-free base64 segment recovers the UTF-8 bytes of
`entityId` exactly. -/
theorem C8_resolveUrl_template_roundtrip :
    (∀ (base u sm_id id_s : String), pyStartsWith "http" u = true →
      resolveUrl base (some u) sm_id id_s = u) ∧
    (∀ (base sm_id id_s : String) (url? : Option String),
      (url? = none ∨ ∃ u, url? = some u ∧
        (u.toList.isEmpty = true ∨ pyStartsWith "http" u = false)) →
      resolveUrl base url? sm_id id_s =
        base ++ "/submodels/" ++ String.mk (urlsafeB64NoPad (strBytes sm_id)) ++
          "/submodel-elements/" ++ id_s ++ "/attachment") ∧
    (∀ sm_id : String, b64decodeChars (urlsafeB64NoPad (strBytes sm_id)) = strBytes sm_id) := by
  refine ⟨?_, ?_, b64_roundtrip_string⟩
  · intro base u sm_id id_s h
    have hne : u.toList.isEmpty = false := by
      unfold pyStartsWith at h
      cases hu : u.toList with
      | nil => rw [hu] at h; exact absurd h (by decide)
      | cons a t => simp [hu]
    have hcond : (!(u.toList.isEmpty) && pyStartsWith "http" u) = true := by
      rw [h, hne]; rfl
    simp only [resolveUrl, hcond]
    simp
  · intro base sm_id id_s url? h
    rcases h with rfl | ⟨u, rfl, hc⟩
    · rfl
    · rcases hc with he | hs
      · have hcond : (!(u.toList.isEmpty) && pyStartsWith "http" u) = false := by
          rw [he]; rfl
        simp only [resolveUrl, hcond]
        simp
      · have hcond : (!(u.toList.isEmpty) && pyStartsWith "http" u) = false := by
          rw [hs, Bool.and_false]
        simp only [resolveUrl, hcond]
        simp

/-- Witness for C8 at concrete inputs: an explicit `http` URL is kept
verbatim, a missing value produces the template URL, and the base64
segment for `"sm1"` decodes back to the bytes of `"sm1"`. -/
theorem C8_witness :
    resolveUrl "b" (some "http://x/y.pdf") "sm1" "Doc" = "http://x/y.pdf" ∧
    resolveUrl "b" none "sm1" "Doc" =
      "b" ++ "/submodels/" ++ String.mk (urlsafeB64NoPad (strBytes "sm1")) ++
        "/submodel-elements/" ++ "Doc" ++ "/attachment" ∧
    b64decodeChars (urlsafeB64NoPad (strBytes "sm1")) = strBytes "sm1" :=
  ⟨C8_resolveUrl_template_roundtrip.1 "b" "http://x/y.pdf" "sm1" "Doc" (by decide),
   C8_resolveUrl_template_roundtrip.2.1 "b" "sm1" "Doc" none (Or.inl rfl),
   C8_resolveUrl_template_roundtrip.2.2 "sm1"⟩

/-! ## Claim C9 -/

/-- C9 (confirmed): if conversion and chunking of a successfully
downloaded attachment yield no chunks, or only chunks that are empty
or whitespace, `ingest_from_url` returns early without computing
embeddings, without creating the index collection and without
inserting any records, while the downloaded temporary file is still
removed. -/
theorem C9_empty_chunks_early_return :
    ∀ (be : Backend) (url? smep : Option String) (id_s sm_id : String) (st : Store),
      be.fetchOk (resolveUrl be.baseUrl url? sm_id id_s) = true →
      be.convertOk = true →
      ((be.chunksOf be.convertMd).isEmpty = true ∨
        (be.chunksOf be.convertMd).all strippedEmpty = true) →
      (ingest_from_url be url? (some id_s) (some sm_id) smep st).outcome = .ok () ∧
      (ingest_from_url be url? (some id_s) (some sm_id) smep st).embeddingsComputed = false ∧
      (ingest_from_url be url? (some id_s) (some sm_id) smep st).collectionCreated = false ∧
      (ingest_from_url be url? (some id_s) (some sm_id) smep st).recordsInserted = false ∧
      (ingest_from_url be url? (some id_s) (some sm_id) smep st).store = st ∧
      (ingest_from_url be url? (some id_s) (some sm_id) smep st).fileRemoved = true := by
  intro be url? smep id_s sm_id st hf hc hempty
  simp only [ingest_from_url, hf, hc]
  rcases hempty with h | h <;> simp [h]

/-- Witness for C9: a backend whose chunker returns only an empty and
a whitespace chunk leaves the store untouched while the temp file is
removed. -/
theorem C9_witness :
    (ingest_from_url emptyChunksBe (some "http://x/a.pdf") (some "P") (some "sm1")
        (some "P") store0).outcome = .ok () ∧
    (ingest_from_url emptyChunksBe (some "http://x/a.pdf") (some "P") (some "sm1")
        (some "P") store0).embeddingsComputed = false ∧
    (ingest_from_url emptyChunksBe (some "http://x/a.pdf") (some "P") (some "sm1")
        (some "P") store0).collectionCreated = false ∧
    (ingest_from_url emptyChunksBe (some "http://x/a.pdf") (some "P") (some "sm1")
        (some "P") store0).recordsInserted = false ∧
    (ingest_from_url emptyChunksBe (some "http://x/a.pdf") (some "P") (some "sm1")
        (some "P") store0).store = store0 ∧
    (ingest_from_url emptyChunksBe (some "http://x/a.pdf") (some "P") (some "sm1")
        (some "P") store0).fileRemoved = true :=
  C9_empty_chunks_early_return emptyChunksBe (some "http://x/a.pdf") (some "P") "P" "sm1"
    store0 rfl rfl (Or.inr rfl)

/-! ## Claim C10 -/

/-- C10 (confirmed): `pop` on an empty visitation stack is a silent
no-op — the truthiness guard skips the raw deque pop, so the method
never raises and leaves the context unchanged — and consequently every
sequence of `offer`/`pop` operations runs to completion without a
stack underflow. -/
theorem C10_pop_no_underflow :
    pathInfoPop ([] : List Referable) = some [] ∧
    ∀ (ops : List StackOp) (s : List Referable), (runStackOps ops s).isSome = true := by
  refine ⟨rfl, ?_⟩
  intro ops
  induction ops with
  | nil => intro s; rfl
  | cons op rest ih =>
    intro s
    cases op with
    | offer r => exact ih (pathInfoOffer s r)
    | pop =>
      cases s with
      | nil => exact ih []
      | cons a t =>
        have hpop : pathInfoPop (a :: t) = some ((a :: t).dropLast) := rfl
        simp only [runStackOps, hpop]
        exact ih ((a :: t).dropLast)

/-! ## Claim C5 -/

/-- C5 (code bug): the Path Resolver's list-index lookup uses Python
`list.index`, i.e. first-match value equality, not identity/position.
For the list node `refL` whose two children are equal-valued, the
visitation stack while the tree walk visits the second child
(position 1) is `[refL, refX]`, and the resolver emits `"[0]"` — the
index of the first equal-valued element — instead of the child's own
position `"[1]"`; both duplicate siblings therefore resolve to the
same segment. -/
theorem C5_duplicate_siblings_value_index :
    build_path_from_stack [refL, refX] = "[0]" ∧ "[0]" ≠ "[1]" :=
  ⟨rfl, by decide⟩

/-! ## Claim C1 -/

/-- C1 (refuted as stated): `ingest_from_url` performs no existence
check.  Two successful calls with identical
`(entityId, locationPath) = ("sm1", "P")` both insert: the second call
is not a no-op (the store changes again) and afterwards two indexed
copies (here: two records, one chunk each) exist for that key. -/
theorem C1_counterexample :
    (ingest_from_url okBe (some "http://x/a.pdf") (some "P") (some "sm1") (some "P")
        store0).outcome = .ok () ∧
    (ingest_from_url okBe (some "http://x/a.pdf") (some "P") (some "sm1") (some "P")
      (ingest_from_url okBe (some "http://x/a.pdf") (some "P") (some "sm1") (some "P")
        store0).store).outcome = .ok () ∧
    (ingest_from_url okBe (some "http://x/a.pdf") (some "P") (some "sm1") (some "P")
      (ingest_from_url okBe (some "http://x/a.pdf") (some "P") (some "sm1") (some "P")
        store0).store).store ≠
      (ingest_from_url okBe (some "http://x/a.pdf") (some "P") (some "sm1") (some "P")
        store0).store ∧
    ((ingest_from_url okBe (some "http://x/a.pdf") (some "P") (some "sm1") (some "P")
      (ingest_from_url okBe (some "http://x/a.pdf") (some "P") (some "sm1") (some "P")
        store0).store).store.records.filter (fun r =>
          r.submodelId == "sm1" && r.smElementPath == some "P")).length = 2 :=
  ⟨rfl, rfl, by decide, rfl⟩

/-- C1 (amended): `ingest` performs no existence check; every
successful call unconditionally appends a fresh full set of
`IndexRecord`s for `(entityId, locationPath)`, independent of the
records already present, so a second call with identical arguments
adds a second copy instead of being a no-op. -/
theorem C1_amended_unconditional_append :
    ∀ (be : Backend) (url? smep : Option String) (id_s sm_id : String) (st : Store),
      be.fetchOk (resolveUrl be.baseUrl url? sm_id id_s) = true →
      be.convertOk = true →
      (be.chunksOf be.convertMd).isEmpty = false →
      (be.chunksOf be.convertMd).all strippedEmpty = false →
      be.embedOk = true → be.connectOk = true → be.insertOk = true →
      (ingest_from_url be url? (some id_s) (some sm_id) smep st).outcome = .ok () ∧
      (ingest_from_url be url? (some id_s) (some sm_id) smep st).store.records =
        st.records ++ (be.chunksOf be.convertMd).map (fun t =>
          ⟨t, rawNameOf (resolveUrl be.baseUrl url? sm_id id_s), sm_id, smep, id_s,
            be.embedOf t⟩) := by
  intro be url? smep id_s sm_id st hf hc h1 h2 he hco hi
  simp only [ingest_from_url, hf, hc, h1, h2, he, hco, hi]
  simp

/-- Witness for the amended C1: starting from a store that already
holds the records of a first ingest for `("sm1", "P")`, a second
identical successful ingest appends the same set again. -/
theorem C1_witness :
    (ingest_from_url okBe (some "http://x/a.pdf") (some "P") (some "sm1") (some "P")
        ⟨true, [recP]⟩).store.records = [recP] ++ [recP] := by
  have h := C1_amended_unconditional_append okBe (some "http://x/a.pdf") (some "P") "P"
    "sm1" ⟨true, [recP]⟩ rfl rfl (by decide) (by decide) rfl rfl rfl
  exact h.2.trans (by decide)

/-! ## Claim C2 -/

/-- C2 (refuted as stated): errors are not swallowed.  With a backend
on which only the download of `http://x/a.pdf` fails, walking the two
sibling PDFs `[pdfA, pdfB]` aborts at `pdfA` with the raised
`httpErr` — the second sibling is never processed (no records appear),
even though processing `pdfB` alone succeeds and produces records —
and the HTTP handler reports the failure as a `500` response. -/
theorem C2_counterexample :
    process_elements badFetchBe (some "sm1") [] [pdfA, pdfB] store0 =
      (.error .httpErr, store0) ∧
    (process_elements badFetchBe (some "sm1") [] [pdfB] store0).2.records ≠ [] ∧
    handle_aas_event badFetchBe (some evCreateBad) store0 = ((500, "error"), store0) :=
  ⟨rfl, by decide, rfl⟩

/-- C2 (amended): `ingest` propagates retrieval/conversion/embedding
errors to its caller instead of logging and swallowing them; during a
whole-entity tree walk the first failing attachment aborts the walk,
so the remaining siblings are not processed, and the event handler
surfaces the failure to the HTTP caller as a `500` response. -/
theorem C2_amended_errors_propagate :
    ∀ (be : Backend) (sm : Option String) (stack : List El) (el : El) (els : List El)
      (st st' : Store) (e : PyErr),
      process_element be sm stack el st = (.error e, st') →
      process_elements be sm stack (el :: els) st = (.error e, st') ∧
      ∀ ev : Event, pyEndsWith "_CREATED" (pyUpper ev.type) = true →
        ev.submodel = some ⟨el :: els⟩ → ev.id = sm → stack = [] →
        handle_aas_event be (some ev) st = ((500, "error"), st') := by
  intro be sm stack el els st st' e h
  have h1 : process_elements be sm stack (el :: els) st = (.error e, st') := by
    simp only [process_elements]
    rw [h]
  refine ⟨h1, ?_⟩
  intro ev hty hsub hid hstack
  subst hid hstack
  simp only [handle_aas_event, hty, if_true]
  simp only [handle_create, hsub]
  rw [h1]

/-- Witness for the amended C2 at the concrete failing walk: the abort
of the sibling loop and the `500` response. -/
theorem C2_witness :
    process_elements badFetchBe (some "sm1") [] [pdfA, pdfB] store0 =
      (.error .httpErr, store0) ∧
    handle_aas_event badFetchBe (some evCreateBad) store0 = ((500, "error"), store0) := by
  have h := C2_amended_errors_propagate badFetchBe (some "sm1") [] pdfA [pdfB] store0
    store0 .httpErr rfl
  exact ⟨h.1, h.2 evCreateBad (by decide) rfl rfl rfl⟩

/-! ## Claim C3 -/

/-- C3 (refuted as stated): for a recognized event type the handler
does not return `202 Accepted` with `{"status":"accepted"}` — it
processes the event synchronously and returns `200` with
`"success"`, and a failure during processing does reach the HTTP
caller as a `500` response. -/
theorem C3_counterexample :
    handle_aas_event okBe (some evDel) store0 = ((200, "success"), store0) ∧
    (handle_aas_event okBe (some evDel) store0).1.1 ≠ 202 ∧
    (handle_aas_event okBe (some evDel) store0).1.2 ≠ "accepted" ∧
    handle_aas_event badFetchBe (some evCreateBad) store0 = ((500, "error"), store0) :=
  ⟨rfl, by decide, by decide, rfl⟩

/-- C3 (amended): for every recognized event type suffix the handler
runs the matching processing function synchronously in the request
thread on the current store and answers `200` with `"success"` when it
returns normally, or `500` with `"error"` when it raises; the
response always reflects the already-finished processing. -/
theorem C3_amended_synchronous_response :
    ∀ (be : Backend) (ev : Event) (st : Store),
      (pyEndsWith "_CREATED" (pyUpper ev.type) = true →
        handle_aas_event be (some ev) st =
          ((match (handle_create be ev st).1 with
            | .ok _ => ((200 : Nat), "success")
            | .error _ => (500, "error")), (handle_create be ev st).2)) ∧
      (pyEndsWith "_CREATED" (pyUpper ev.type) = false →
        pyEndsWith "_UPDATED" (pyUpper ev.type) = true →
        handle_aas_event be (some ev) st =
          ((match (handle_update be ev st).1 with
            | .ok _ => ((200 : Nat), "success")
            | .error _ => (500, "error")), (handle_update be ev st).2)) ∧
      (pyEndsWith "_CREATED" (pyUpper ev.type) = false →
        pyEndsWith "_UPDATED" (pyUpper ev.type) = false →
        pyEndsWith "_DELETED" (pyUpper ev.type) = true →
        handle_aas_event be (some ev) st =
          ((match (handle_delete be ev st).1 with
            | .ok _ => ((200 : Nat), "success")
            | .error _ => (500, "error")), (handle_delete be ev st).2)) := by
  intro be ev st
  refine ⟨?_, ?_, ?_⟩
  · intro h1
    simp only [handle_aas_event, h1, if_true]
    cases hr : handle_create be ev st with
    | mk o s2 => cases o <;> simp
  · intro h1 h2
    simp only [handle_aas_event, h1, h2, if_true, Bool.false_eq_true, if_false]
    cases hr : handle_update be ev st with
    | mk o s2 => cases o <;> simp
  · intro h1 h2 h3
    simp only [handle_aas_event, h1, h2, h3, if_true, Bool.false_eq_true, if_false]
    cases hr : handle_delete be ev st with
    | mk o s2 => cases o <;> simp

/-- Witness for the amended C3: a recognized `*_UPDATED` event with no
payload is processed synchronously and answered with `200`/`success`. -/
theorem C3_witness :
    handle_aas_event okBe (some evUpdEmpty) store0 = ((200, "success"), store0) := by
  have h := (C3_amended_synchronous_response okBe evUpdEmpty store0).2.1 (by decide) (by decide)
  exact h.trans (by decide)

/-! ## Claim C4 -/

/-- Full characterization of a successful `ingest_from_url` call:
every external step succeeds, so the result is `ok`, the collection
exists afterwards, and the fresh records are appended. -/
theorem ingest_success_eq :
    ∀ (be : Backend) (url? smep : Option String) (id_s sm_id : String) (st : Store),
      be.fetchOk (resolveUrl be.baseUrl url? sm_id id_s) = true →
      be.convertOk = true →
      (be.chunksOf be.convertMd).isEmpty = false →
      (be.chunksOf be.convertMd).all strippedEmpty = false →
      be.embedOk = true → be.connectOk = true → be.insertOk = true →
      ingest_from_url be url? (some id_s) (some sm_id) smep st =
        ⟨.ok (), ⟨true, st.records ++ (be.chunksOf be.convertMd).map (fun t =>
            ⟨t, rawNameOf (resolveUrl be.baseUrl url? sm_id id_s), sm_id, smep, id_s,
              be.embedOf t⟩)⟩,
          true, !st.collectionExists, true, true, true⟩ := by
  intro be url? smep id_s sm_id st hf hc h1 h2 he hco hi
  simp only [ingest_from_url, hf, hc, h1, h2, he, hco, hi]
  simp

/-- C4 (refuted as stated): `handle_update` on a single-node PDF event
deletes by the event's `smElementPath` (`"A.B"`) but ingests records
stored under the element's `idShort` (`"B"`).  Starting from a store
holding an old record under `("sm1", "B")`, processing `evC4`
completes successfully with the old record still present next to the
freshly ingested record under the same `(submodelId, smElementPath)`
key — old and new coexist after processing finishes. -/
theorem C4_counterexample :
    handle_update okBe evC4 stC4 = (.ok (), ⟨true, [oldRecB, newRecC4]⟩) ∧
    oldRecB.submodelId = newRecC4.submodelId ∧
    oldRecB.smElementPath = newRecC4.smElementPath ∧
    oldRecB ∈ (handle_update okBe evC4 stC4).2.records :=
  ⟨rfl, rfl, rfl, by decide⟩

/-- C4 (amended): the delete uses the event's `smElementPath` and the
ingest stores the element's `idShort` as path, so replace semantics
hold exactly when those two agree: if the event's `smElementPath`
equals the element's (non-empty) `idShort` `p`, then after a
successful update the records at `(entityId, p)` are exactly the fresh
ones — the old records at that key are gone and only the new ones are
present. -/
theorem C4_amended_replace_when_paths_agree :
    ∀ (be : Backend) (ev : Event) (el : El) (st : Store) (sm p : String),
      ev.smElement = some el → is_pdf el = true →
      ev.id = some sm → ev.smElementPath = some p → El.idShort el = some p →
      p.toList.isEmpty = false →
      st.collectionExists = true → be.connectOk = true → be.deleteOk = true →
      be.fetchOk (resolveUrl be.baseUrl el.value sm p) = true →
      be.convertOk = true →
      (be.chunksOf be.convertMd).isEmpty = false →
      (be.chunksOf be.convertMd).all strippedEmpty = false →
      be.embedOk = true → be.insertOk = true →
      handle_update be ev st =
        (.ok (), ⟨true,
          st.records.filter (fun r =>
            !(r.submodelId == sm && r.smElementPath == some p)) ++
            (be.chunksOf be.convertMd).map (fun t =>
              ⟨t, rawNameOf (resolveUrl be.baseUrl el.value sm p), sm, some p, p,
                be.embedOf t⟩)⟩) := by
  intro be ev el st sm p hsme hpdf hid hpath hids hpne hex hconn hdel hf hconv hch1 hch2
    hemb hins
  have hpathEq : get_id_short_path el.idShort "" = p := by
    rw [hids]
    simp only [get_id_short_path]
    rw [hpne]
    rfl
  have hstep1 : delete_specific_document be (some sm) (some p) st =
      ⟨st.collectionExists, st.records.filter (fun r =>
        !(r.submodelId == sm && r.smElementPath == some p))⟩ := by
    simp only [delete_specific_document, hconn, hex, hpne]
    simp [hdel]
  have hupdate : handle_update be ev st =
      (let sm_element_path := get_id_short_path el.idShort ""
       let st1 := delete_specific_document be ev.id ev.smElementPath st
       let r := ingest_from_url be el.value ev.smElementPath ev.id (some sm_element_path) st1
       (r.outcome, r.store)) := by
    simp only [handle_update, hsme]
    rw [if_pos hpdf]
  rw [hupdate]
  simp only [hid, hpath, hpathEq, hstep1, hex]
  rw [ingest_success_eq be el.value (some p) p sm _ hf hconv hch1 hch2 hemb hconn hins]

/-- Witness for the amended C4: when the event's `smElementPath`
equals the element's `idShort` (`"B"`), the old record under
`("sm1", "B")` is removed and exactly the fresh records remain. -/
theorem C4_witness :
    handle_update okBe evC4w stC4 =
      (.ok (), ⟨true, [⟨"hello", "new.pdf", "sm1", some "B", "B", [1]⟩]⟩) := by
  have h := C4_amended_replace_when_paths_agree okBe evC4w pdfNew stC4 "sm1" "B"
    rfl (by decide) rfl rfl rfl (by decide) rfl rfl rfl (by decide) rfl (by decide)
    (by decide) rfl rfl
  exact h.trans (by rfl)

/-! ## Claim C6 -/

/-- C6 (refuted as stated): an unrecognized event type suffix is
answered with HTTP status `400`, not `200 OK` — the body status is
`"ignored"` and the store is untouched, but the status code differs
from the claim. -/
theorem C6_counterexample :
    handle_aas_event okBe (some evRenamed) ⟨true, [recC7]⟩ =
      ((400, "ignored"), ⟨true, [recC7]⟩) ∧
    (handle_aas_event okBe (some evRenamed) ⟨true, [recC7]⟩).1.1 ≠ 200 :=
  ⟨rfl, by decide⟩

/-- C6 (amended): for every event whose upper-cased type matches none
of the recognized suffixes, `POST /events` returns HTTP `400` with an
`"ignored"` status and performs no ingestion or deletion — the store
is returned unchanged. -/
theorem C6_amended_ignored_400 :
    ∀ (be : Backend) (ev : Event) (st : Store),
      pyEndsWith "_CREATED" (pyUpper ev.type) = false →
      pyEndsWith "_UPDATED" (pyUpper ev.type) = false →
      pyEndsWith "_DELETED" (pyUpper ev.type) = false →
      handle_aas_event be (some ev) st = ((400, "ignored"), st) := by
  intro be ev st h1 h2 h3
  simp only [handle_aas_event, h1, h2, h3, Bool.false_eq_true, if_false]

/-- Witness for the amended C6: the `SM_RENAMED` event yields the
`400`/`ignored` response and leaves a non-empty index unchanged. -/
theorem C6_witness :
    handle_aas_event okBe (some evRenamed) ⟨true, [recC7]⟩ =
      ((400, "ignored"), ⟨true, [recC7]⟩) :=
  C6_amended_ignored_400 okBe evRenamed ⟨true, [recC7]⟩ (by decide) (by decide) (by decide)

/-! ## Claim C7 -/

/-- C7 (refuted as stated): because of the truthiness test
`if smElementPath:`, a supplied empty-string `locationPath` is treated
as absent: deleting with `("sm1", "")` on a store holding a record
under path `"A"` removes that record (it deletes everything of
`sm1`), whereas the claim's narrowing (exact equality with `""`,
captured by `deleteMatchingSpec`) would keep it. -/
theorem C7_counterexample :
    (delete_specific_document okBe (some "sm1") (some "") stC7).records = [] ∧
    (deleteMatchingSpec "sm1" (some "") stC7).records = [recC7] ∧
    delete_specific_document okBe (some "sm1") (some "") stC7 ≠
      deleteMatchingSpec "sm1" (some "") stC7 :=
  ⟨rfl, rfl, by decide⟩

/-- C7 (amended): `delete_specific_document` removes exactly the
records whose `submodelId` equals the given id, narrowed by exact
equality (not prefix matching) on `smElementPath` when a *non-empty*
path is supplied; a supplied empty path behaves exactly like an absent
one; the call is a no-op (not an error) when the collection does not
exist; and a failing backend delete is swallowed, leaving the store
unchanged (the model's total return type reflects that the function
never raises). -/
theorem C7_amended_delete_characterization :
    ∀ (be : Backend) (sm p : String) (st : Store) (r : IndexRecord),
      (be.connectOk = true → st.collectionExists = true → be.deleteOk = true →
        p.toList.isEmpty = false →
        (r ∈ (delete_specific_document be (some sm) (some p) st).records ↔
          r ∈ st.records ∧ ¬(r.submodelId = sm ∧ r.smElementPath = some p))) ∧
      (st.collectionExists = false →
        delete_specific_document be (some sm) (some p) st = st) ∧
      (be.deleteOk = false →
        delete_specific_document be (some sm) (some p) st = st) ∧
      delete_specific_document be (some sm) (some "") st =
        delete_specific_document be (some sm) none st := by
  intro be sm p st r
  refine ⟨?_, ?_, ?_, rfl⟩
  · intro h1 h2 h3 hp
    simp only [delete_specific_document, h1, h2, h3, hp]
    simp [List.mem_filter]
    tauto
  · intro h
    by_cases hconn : be.connectOk <;> simp [delete_specific_document, hconn, h]
  · intro h
    by_cases hconn : be.connectOk <;>
      by_cases hex : st.collectionExists <;>
        simp [delete_specific_document, hconn, hex, h]

/-- Witness for the amended C7: a record under path `"A"` is removed
when deleting with the matching non-empty path `"A"`, and deleting
with an empty path equals deleting with no path. -/
theorem C7_witness :
    recC7 ∉ (delete_specific_document okBe (some "sm1") (some "A") stC7).records ∧
    delete_specific_document okBe (some "sm1") (some "") stC7 =
      delete_specific_document okBe (some "sm1") none stC7 := by
  have h := C7_amended_delete_characterization okBe "sm1" "A" stC7 recC7
  constructor
  · intro hm
    have hmm := (h.1 rfl rfl rfl (by decide)).mp hm
    exact hmm.2 ⟨rfl, rfl⟩
  · exact h.2.2.2
